import Mathlib

/-!
Verification of `pyanaconda/modules/payload/base/handler_base.py`:
the `PayloadHandlerBase` class, its `sources` property, the guarded
`set_sources` replacement command, the `has_source` query and the
`sources_changed` signal.

The Python class is embedded as a value-level state record.  A call to
`set_sources` is a pure function from the pre-call handler state and the
candidate list to (outcome, post-call handler state, trace of signal
emissions); an exception raised in the Python body corresponds to an
`Except.error` outcome with the state returned unchanged and an empty
emission trace, since `raise` happens before the assignment and the emit.
Each emission event records the value of the `sources` property at the
moment `Signal.emit` is invoked, so temporal claims about observers can
be stated.
-/

/-- A value of `payload.base.constants.SourceType`, modelled as a plain
discriminator. -/
abbrev SourceType := Nat

/-- An instance of `PayloadSourceBase` as seen by `handler_base.py`: it
carries a `type` discriminator and answers the `is_ready()` query.
Readiness is controlled by external machinery, so within one call it is a
fixed attribute of the source. -/
structure PayloadSourceBase where
  type : SourceType
  ready : Bool
deriving DecidableEq, Repr

/-- The `is_ready()` query of a source. -/
def PayloadSourceBase.is_ready (s : PayloadSourceBase) : Bool := s.ready

/-- The exceptions raised by `set_sources`:
`IncompatibleSourceError` (carrying the offending source type, which the
Python message formats into its text) and `SourceSetupError`. -/
inductive PayloadError where
  | IncompatibleSourceError (sourceType : SourceType)
  | SourceSetupError
deriving DecidableEq, Repr

/-- The state of a `PayloadHandlerBase` object.  `supported_source_types`
is the abstract read-only property supplied by the concrete subtype,
fixed for the lifetime of the handler; `_sources` is the private list
attribute. -/
structure PayloadHandlerBase where
  supported_source_types : List SourceType
  _sources : List PayloadSourceBase
deriving DecidableEq, Repr

/-- `__init__`: `self._sources = []`; the concrete subtype fixes
`supported_source_types`. -/
def PayloadHandlerBase.init (supported : List SourceType) : PayloadHandlerBase :=
  { supported_source_types := supported, _sources := [] }

/-- The `sources` property: `return self._sources`. -/
def PayloadHandlerBase.sources (h : PayloadHandlerBase) : List PayloadSourceBase :=
  h._sources

/-- One emission on the `sources_changed` signal, recording the value of
the `sources` property at the moment `emit()` runs. -/
structure EmitEvent where
  sources_at_emit : List PayloadSourceBase
deriving DecidableEq, Repr

/-- The first loop of `set_sources`:
`for source in sources: if source.type not in self.supported_source_types:
raise IncompatibleSourceError(...)`.  Returns the raised exception, or
`ok` when every element passes. -/
def check_source_types (supported : List SourceType) :
    List PayloadSourceBase → Except PayloadError Unit
  | [] => Except.ok ()
  | s :: rest =>
    if s.type ∈ supported then check_source_types supported rest
    else Except.error (PayloadError.IncompatibleSourceError s.type)

/-- `set_sources(self, sources)`.  Returns the call outcome, the handler
state after the call, and the trace of `sources_changed` emissions made
during the call.  The Python body raises `IncompatibleSourceError` from
the type loop, then raises `SourceSetupError` when
`any(source.is_ready() for source in self.sources)`, and only then
executes `self._sources = sources` followed by
`self.sources_changed.emit()`. -/
def set_sources (h : PayloadHandlerBase) (sources : List PayloadSourceBase) :
    Except PayloadError Unit × PayloadHandlerBase × List EmitEvent :=
  match check_source_types h.supported_source_types sources with
  | Except.error e => (Except.error e, h, [])
  | Except.ok () =>
    if h.sources.any (fun s => s.is_ready) then
      (Except.error PayloadError.SourceSetupError, h, [])
    else
      let h' : PayloadHandlerBase := { h with _sources := sources }
      (Except.ok (), h', [{ sources_at_emit := h'.sources }])

/-- `has_source(self)`: `return bool(self.sources)` — true iff the list
is non-empty. -/
def has_source (h : PayloadHandlerBase) : Bool :=
  !h.sources.isEmpty

/-- Handler states reachable from construction by successful
`set_sources` calls (failed calls return the state unchanged, so they add
no states). -/
inductive Reachable (supported : List SourceType) : PayloadHandlerBase → Prop
  | init : Reachable supported (PayloadHandlerBase.init supported)
  | step (h : PayloadHandlerBase) (cand : List PayloadSourceBase)
      (hr : Reachable supported h)
      (hok : (set_sources h cand).1 = Except.ok ()) :
      Reachable supported (set_sources h cand).2.1

/-!
Reference-level model for the `sources` property.  The Python statement
`return self._sources` hands the caller the very list object stored in
the attribute, not a copy, so aliasing questions need reference
semantics: a heap maps list-object addresses to list contents, and the
handler's `_sources` attribute holds an address.
-/

/-- A heap of Python list objects: addresses to list contents. -/
structure PyHeap where
  lists : Nat → List PayloadSourceBase

/-- A `PayloadHandlerBase` at reference level: the `_sources` attribute
holds the address of a list object. -/
structure PyHandler where
  sourcesRef : Nat

/-- The `sources` property at reference level: `return self._sources`
yields the stored list object itself, i.e. its address. -/
def PyHandler.sources_getter (h : PyHandler) : Nat := h.sourcesRef

/-- In-place mutation of a list object (e.g. `lst.append(s)`) at a given
address. -/
def PyHeap.append (hp : PyHeap) (ref : Nat) (s : PayloadSourceBase) : PyHeap :=
  { lists := fun a => if a = ref then hp.lists a ++ [s] else hp.lists a }

/-- The handler's internal source list as read through the heap. -/
def PyHandler.internalSources (h : PyHandler) (hp : PyHeap) :
    List PayloadSourceBase :=
  hp.lists h.sourcesRef

/-!  Helper lemmas about the type-check loop and `set_sources`. -/

theorem check_source_types_ok_iff (supported : List SourceType) :
    ∀ l : List PayloadSourceBase,
      check_source_types supported l = Except.ok () ↔ ∀ s ∈ l, s.type ∈ supported := by
  intro l
  induction l with
  | nil => simp [check_source_types]
  | cons s rest ih =>
    by_cases hs : s.type ∈ supported
    · simp [check_source_types, hs, ih]
    · simp [check_source_types, hs]

theorem check_source_types_error_of_bad (supported : List SourceType)
    (l : List PayloadSourceBase) (hbad : ∃ s ∈ l, s.type ∉ supported) :
    ∃ t, t ∉ supported ∧
      check_source_types supported l = Except.error (PayloadError.IncompatibleSourceError t) := by
  induction l with
  | nil => simp at hbad
  | cons s rest ih =>
    by_cases hs : s.type ∈ supported
    · obtain ⟨x, hx, hxn⟩ := hbad
      rcases List.mem_cons.mp hx with heq | hmem
      · exact absurd hs (heq ▸ hxn)
      · obtain ⟨t, htn, hteq⟩ := ih ⟨x, hmem, hxn⟩
        exact ⟨t, htn, by simpa [check_source_types, hs] using hteq⟩
    · exact ⟨s.type, hs, by simp [check_source_types, hs]⟩

theorem set_sources_eq_error_check (h : PayloadHandlerBase)
    (cand : List PayloadSourceBase) (e : PayloadError)
    (hc : check_source_types h.supported_source_types cand = Except.error e) :
    set_sources h cand = (Except.error e, h, []) := by
  unfold set_sources
  rw [hc]

theorem set_sources_eq_error_ready (h : PayloadHandlerBase)
    (cand : List PayloadSourceBase)
    (hc : check_source_types h.supported_source_types cand = Except.ok ())
    (hb : h.sources.any (fun s => s.is_ready) = true) :
    set_sources h cand = (Except.error PayloadError.SourceSetupError, h, []) := by
  unfold set_sources
  rw [hc, hb]
  rfl

theorem set_sources_eq_ok (h : PayloadHandlerBase) (cand : List PayloadSourceBase)
    (hc : check_source_types h.supported_source_types cand = Except.ok ())
    (hb : h.sources.any (fun s => s.is_ready) = false) :
    set_sources h cand
      = (Except.ok (), { h with _sources := cand }, [{ sources_at_emit := cand }]) := by
  unfold set_sources
  rw [hc, hb]
  rfl

theorem set_sources_ok_spec (h : PayloadHandlerBase) (cand : List PayloadSourceBase)
    (hok : (set_sources h cand).1 = Except.ok ()) :
    check_source_types h.supported_source_types cand = Except.ok () ∧
    h.sources.any (fun s => s.is_ready) = false ∧
    (set_sources h cand).2.1 = { h with _sources := cand } ∧
    (set_sources h cand).2.2 = [{ sources_at_emit := cand }] := by
  cases hc : check_source_types h.supported_source_types cand with
  | error e => rw [set_sources_eq_error_check h cand e hc] at hok; exact absurd hok (by simp)
  | ok u =>
    cases u
    cases hb : h.sources.any (fun s => s.is_ready) with
    | true => rw [set_sources_eq_error_ready h cand hc hb] at hok; exact absurd hok (by simp)
    | false =>
      rw [set_sources_eq_ok h cand hc hb]
      exact ⟨rfl, rfl, rfl, rfl⟩

theorem set_sources_error_spec (h : PayloadHandlerBase) (cand : List PayloadSourceBase)
    (e : PayloadError) (herr : (set_sources h cand).1 = Except.error e) :
    (set_sources h cand).2.1 = h ∧ (set_sources h cand).2.2 = [] := by
  cases hc : check_source_types h.supported_source_types cand with
  | error e2 => rw [set_sources_eq_error_check h cand e2 hc]; exact ⟨rfl, rfl⟩
  | ok u =>
    cases u
    cases hb : h.sources.any (fun s => s.is_ready) with
    | true => rw [set_sources_eq_error_ready h cand hc hb]; exact ⟨rfl, rfl⟩
    | false => rw [set_sources_eq_ok h cand hc hb] at herr; exact absurd herr (by simp)

theorem reachable_supported (supported : List SourceType) (h : PayloadHandlerBase)
    (hr : Reachable supported h) : h.supported_source_types = supported := by
  induction hr with
  | init => rfl
  | step h cand hr hok ih =>
    have hspec := set_sources_ok_spec h cand hok
    rw [hspec.2.2.1]
    exact ih

/-!  Concrete instances used by counterexamples and witnesses. -/

/-- A source of type 0, not ready. -/
def src0 : PayloadSourceBase := { type := 0, ready := false }

/-- A source of type 0, ready. -/
def src0r : PayloadSourceBase := { type := 0, ready := true }

/-- A source of type 1, not ready. -/
def src1 : PayloadSourceBase := { type := 1, ready := false }

/-- A handler supporting only type 0, holding no sources. -/
def h0 : PayloadHandlerBase := { supported_source_types := [0], _sources := [] }

/-- A handler supporting only type 0, holding one non-ready source. -/
def h0s : PayloadHandlerBase := { supported_source_types := [0], _sources := [src0] }

/-- A handler supporting only type 0, holding one ready source. -/
def h0r : PayloadHandlerBase := { supported_source_types := [0], _sources := [src0r] }

/-!  Claim theorems. -/

/-- C1 counterexample: a handler holding a ready source, called with a
candidate containing an unsupported type, fails with
`IncompatibleSourceError`, not `SourceSetupError` — the type check runs
first, so the claim "regardless of whether the new sequence's element
types are supported, the call fails with SourceSetupConflict" is false. -/
theorem C1_counterexample :
    (h0r.sources.any (fun s => s.is_ready) = true) ∧
    (set_sources h0r [src1]).1
      = Except.error (PayloadError.IncompatibleSourceError 1) ∧
    PayloadError.IncompatibleSourceError 1 ≠ PayloadError.SourceSetupError :=
  ⟨by decide, rfl, by decide⟩

/-- C1 (amended): for every handler whose current sources include at
least one ready source, every call to `set_sources` whose candidate's
element types are all supported fails with `SourceSetupError` and leaves
the sources unchanged (a candidate with an unsupported type instead fails
with `IncompatibleSourceError`, still leaving sources unchanged). -/
theorem C1_setup_guard (h : PayloadHandlerBase) (cand : List PayloadSourceBase)
    (hready : h.sources.any (fun s => s.is_ready) = true)
    (hok : ∀ s ∈ cand, s.type ∈ h.supported_source_types) :
    (set_sources h cand).1 = Except.error PayloadError.SourceSetupError ∧
    (set_sources h cand).2.1 = h := by
  have hc : check_source_types h.supported_source_types cand = Except.ok () :=
    (check_source_types_ok_iff h.supported_source_types cand).mpr hok
  rw [set_sources_eq_error_ready h cand hc hready]
  exact ⟨rfl, rfl⟩

/-- Witness for C1_setup_guard at a concrete handler and candidate. -/
theorem C1_setup_guard_witness :
    (h0r.sources.any (fun s => s.is_ready) = true) ∧
    (∀ s ∈ ([src0] : List PayloadSourceBase), s.type ∈ h0r.supported_source_types) ∧
    (set_sources h0r [src0]).1 = Except.error PayloadError.SourceSetupError :=
  ⟨by decide, by decide, (C1_setup_guard h0r [src0] (by decide) (by decide)).1⟩

/-- C2 counterexample: the `sources` property returns the internal list
object itself, so appending to the returned list changes the handler's
internal source list — the claim that a caller cannot mutate the
handler's state through the returned sequence is false. -/
theorem C2_counterexample :
    PyHandler.internalSources { sourcesRef := 0 }
        (PyHeap.append { lists := fun _ => [] }
          (PyHandler.sources_getter { sourcesRef := 0 }) src0)
      ≠ PyHandler.internalSources { sourcesRef := 0 } { lists := fun _ => [] } := by
  simp [PyHandler.internalSources, PyHeap.append, PyHandler.sources_getter]

/-- C2 (amended): the `sources` query returns the handler's internal
list object itself (an alias, not a defensive copy): the returned
reference is exactly the stored `_sources` reference, and any in-place
mutation through it is a mutation of the handler's internal source
list. -/
theorem C2_alias (h : PyHandler) (hp : PyHeap) (s : PayloadSourceBase) :
    PyHandler.sources_getter h = h.sourcesRef ∧
    PyHandler.internalSources h (PyHeap.append hp (PyHandler.sources_getter h) s)
      = PyHandler.internalSources h hp ++ [s] :=
  ⟨rfl, by simp [PyHandler.internalSources, PyHeap.append, PyHandler.sources_getter]⟩

/-- C3: for a handler with no ready current source and a candidate whose
every element's type is supported, `set_sources` succeeds, the `sources`
property afterwards returns the candidate in the same order, and the
`sources_changed` signal is emitted exactly once during the call. -/
theorem C3_success_path (h : PayloadHandlerBase) (cand : List PayloadSourceBase)
    (hnr : h.sources.any (fun s => s.is_ready) = false)
    (hok : ∀ s ∈ cand, s.type ∈ h.supported_source_types) :
    (set_sources h cand).1 = Except.ok () ∧
    (set_sources h cand).2.1.sources = cand ∧
    (set_sources h cand).2.2.length = 1 := by
  have hc : check_source_types h.supported_source_types cand = Except.ok () :=
    (check_source_types_ok_iff h.supported_source_types cand).mpr hok
  rw [set_sources_eq_ok h cand hc hnr]
  exact ⟨rfl, rfl, rfl⟩

/-- Witness for C3_success_path at a concrete handler and candidate. -/
theorem C3_success_path_witness :
    (h0.sources.any (fun s => s.is_ready) = false) ∧
    (∀ s ∈ ([src0] : List PayloadSourceBase), s.type ∈ h0.supported_source_types) ∧
    ((set_sources h0 [src0]).1 = Except.ok () ∧
      (set_sources h0 [src0]).2.1.sources = [src0] ∧
      (set_sources h0 [src0]).2.2.length = 1) :=
  ⟨by decide, by decide, C3_success_path h0 [src0] (by decide) (by decide)⟩

/-- C4: the type-compatibility check over the new sequence runs before
the readiness check over the currently held sources: when the candidate
contains an unsupported type and a current source is ready, the call
fails with `IncompatibleSourceError` (for some unsupported type), not
with `SourceSetupError`. -/
theorem C4_check_order (h : PayloadHandlerBase) (cand : List PayloadSourceBase)
    (hbad : ∃ s ∈ cand, s.type ∉ h.supported_source_types)
    (hready : h.sources.any (fun s => s.is_ready) = true) :
    ∃ t, t ∉ h.supported_source_types ∧
      (set_sources h cand).1 = Except.error (PayloadError.IncompatibleSourceError t) := by
  obtain ⟨t, htn, hc⟩ :=
    check_source_types_error_of_bad h.supported_source_types cand hbad
  exact ⟨t, htn, by rw [set_sources_eq_error_check h cand _ hc]⟩

/-- Witness for C4_check_order at a concrete handler and candidate. -/
theorem C4_check_order_witness :
    (∃ s ∈ ([src1] : List PayloadSourceBase), s.type ∉ h0r.supported_source_types) ∧
    (h0r.sources.any (fun s => s.is_ready) = true) ∧
    ∃ t, t ∉ h0r.supported_source_types ∧
      (set_sources h0r [src1]).1
        = Except.error (PayloadError.IncompatibleSourceError t) :=
  ⟨by decide, by decide, C4_check_order h0r [src1] (by decide) (by decide)⟩

/-- C5: for every handler and every candidate containing a source of an
unsupported type, `set_sources` fails with `IncompatibleSourceError` and
leaves the handler's state (and in particular `sources`) unchanged. -/
theorem C5_type_guard (h : PayloadHandlerBase) (cand : List PayloadSourceBase)
    (hbad : ∃ s ∈ cand, s.type ∉ h.supported_source_types) :
    (∃ t, (set_sources h cand).1
        = Except.error (PayloadError.IncompatibleSourceError t)) ∧
    (set_sources h cand).2.1 = h := by
  obtain ⟨t, htn, hc⟩ :=
    check_source_types_error_of_bad h.supported_source_types cand hbad
  rw [set_sources_eq_error_check h cand _ hc]
  exact ⟨⟨t, rfl⟩, rfl⟩

/-- Witness for C5_type_guard at a concrete handler and candidate. -/
theorem C5_type_guard_witness :
    (∃ s ∈ ([src1] : List PayloadSourceBase), s.type ∉ h0.supported_source_types) ∧
    ((∃ t, (set_sources h0 [src1]).1
        = Except.error (PayloadError.IncompatibleSourceError t)) ∧
      (set_sources h0 [src1]).2.1 = h0) :=
  ⟨by decide, C5_type_guard h0 [src1] (by decide)⟩

/-- C6: whenever `set_sources` fails with either error, the handler
state after the call equals the pre-call state (no partial update) and
the `sources_changed` signal is not emitted. -/
theorem C6_no_partial_state (h : PayloadHandlerBase) (cand : List PayloadSourceBase)
    (e : PayloadError) (herr : (set_sources h cand).1 = Except.error e) :
    (set_sources h cand).2.1 = h ∧ (set_sources h cand).2.2 = [] :=
  set_sources_error_spec h cand e herr

/-- Witness for C6_no_partial_state at a concrete failing call. -/
theorem C6_no_partial_state_witness :
    ((set_sources h0 [src1]).1
      = Except.error (PayloadError.IncompatibleSourceError 1)) ∧
    ((set_sources h0 [src1]).2.1 = h0 ∧ (set_sources h0 [src1]).2.2 = []) :=
  ⟨rfl, C6_no_partial_state h0 [src1] (PayloadError.IncompatibleSourceError 1) rfl⟩

/-- C7: the sources list starts empty at construction, and every handler
state reachable from construction by (successful) `set_sources` calls
holds only sources whose type is in the fixed supported set. -/
theorem C7_invariant (supported : List SourceType) (h : PayloadHandlerBase)
    (hr : Reachable supported h) :
    (PayloadHandlerBase.init supported).sources = [] ∧
    ∀ s ∈ h.sources, s.type ∈ supported := by
  refine ⟨rfl, ?_⟩
  induction hr with
  | init =>
    intro s hs
    simp [PayloadHandlerBase.init, PayloadHandlerBase.sources] at hs
  | step h2 cand hr2 hok ih =>
    have hspec := set_sources_ok_spec h2 cand hok
    have hsup := reachable_supported supported h2 hr2
    intro s hs
    rw [hspec.2.2.1] at hs
    have hmem : s ∈ cand := hs
    have hall := (check_source_types_ok_iff h2.supported_source_types cand).mp hspec.1
    exact hsup ▸ hall s hmem

/-- Witness for C7_invariant at the freshly constructed handler. -/
theorem C7_invariant_witness :
    Reachable [0] (PayloadHandlerBase.init [0]) ∧
    ((PayloadHandlerBase.init [0]).sources = [] ∧
      ∀ s ∈ (PayloadHandlerBase.init [0]).sources, s.type ∈ ([0] : List SourceType)) :=
  ⟨Reachable.init, C7_invariant [0] (PayloadHandlerBase.init [0]) Reachable.init⟩

/-- C8: on a successful call, the replacement is committed before the
signal fires: every emission made during the call records the new
sequence as the value of `sources` at emit time, which equals the
post-call value of `sources`. -/
theorem C8_emit_after_commit (h : PayloadHandlerBase) (cand : List PayloadSourceBase)
    (hs : (set_sources h cand).1 = Except.ok ()) :
    (set_sources h cand).2.1.sources = cand ∧
    ∀ ev ∈ (set_sources h cand).2.2,
      ev.sources_at_emit = (set_sources h cand).2.1.sources := by
  have hspec := set_sources_ok_spec h cand hs
  refine ⟨?_, ?_⟩
  · rw [hspec.2.2.1]
    rfl
  · intro ev hev
    rw [hspec.2.2.2] at hev
    simp at hev
    rw [hev, hspec.2.2.1]
    rfl

/-- Witness for C8_emit_after_commit at a concrete successful call. -/
theorem C8_emit_after_commit_witness :
    ((set_sources h0 [src0]).1 = Except.ok ()) ∧
    ((set_sources h0 [src0]).2.1.sources = [src0] ∧
      ∀ ev ∈ (set_sources h0 [src0]).2.2,
        ev.sources_at_emit = (set_sources h0 [src0]).2.1.sources) :=
  ⟨rfl, C8_emit_after_commit h0 [src0] rfl⟩

/-- C9: on a handler with no ready current source, `set_sources([])`
succeeds (the type check passes vacuously whatever the supported set is)
and `has_source` afterwards returns false. -/
theorem C9_empty_sequence (h : PayloadHandlerBase)
    (hnr : h.sources.any (fun s => s.is_ready) = false) :
    (set_sources h []).1 = Except.ok () ∧
    has_source (set_sources h []).2.1 = false := by
  have hc : check_source_types h.supported_source_types [] = Except.ok () := rfl
  rw [set_sources_eq_ok h [] hc hnr]
  exact ⟨rfl, rfl⟩

/-- Witness for C9_empty_sequence at a concrete non-empty handler. -/
theorem C9_empty_sequence_witness :
    (h0s.sources.any (fun s => s.is_ready) = false) ∧
    ((set_sources h0s []).1 = Except.ok () ∧
      has_source (set_sources h0s []).2.1 = false) :=
  ⟨by decide, C9_empty_sequence h0s (by decide)⟩

/-- C10: `set_sources` never consults the readiness of the elements of
the new sequence: for a handler with no ready current source and a
type-compatible candidate, the call succeeds even when every candidate
element reports ready, and reassigning the readiness flags of the
candidate elements arbitrarily leaves the outcome unchanged. -/
theorem C10_new_readiness_ignored (h : PayloadHandlerBase)
    (cand : List PayloadSourceBase) (f : PayloadSourceBase → Bool)
    (hnr : h.sources.any (fun s => s.is_ready) = false)
    (hok : ∀ s ∈ cand, s.type ∈ h.supported_source_types)
    (hallready : ∀ s ∈ cand, s.is_ready = true) :
    (set_sources h cand).1 = Except.ok () ∧
    (set_sources h (cand.map (fun s => { s with ready := f s }))).1
      = (set_sources h cand).1 := by
  have hc : check_source_types h.supported_source_types cand = Except.ok () :=
    (check_source_types_ok_iff h.supported_source_types cand).mpr hok
  have hok2 : ∀ s ∈ cand.map (fun s => { s with ready := f s }),
      s.type ∈ h.supported_source_types := by
    intro s hs
    obtain ⟨a, ha, rfl⟩ := List.mem_map.mp hs
    exact hok a ha
  have hc2 : check_source_types h.supported_source_types
      (cand.map (fun s => { s with ready := f s })) = Except.ok () :=
    (check_source_types_ok_iff _ _).mpr hok2
  rw [set_sources_eq_ok h cand hc hnr, set_sources_eq_ok h _ hc2 hnr]
  exact ⟨rfl, rfl⟩

/-- Witness for C10_new_readiness_ignored: a candidate whose only
element is already ready is accepted. -/
theorem C10_new_readiness_ignored_witness :
    (h0.sources.any (fun s => s.is_ready) = false) ∧
    (∀ s ∈ ([src0r] : List PayloadSourceBase), s.type ∈ h0.supported_source_types) ∧
    (∀ s ∈ ([src0r] : List PayloadSourceBase), s.is_ready = true) ∧
    ((set_sources h0 [src0r]).1 = Except.ok () ∧
      (set_sources h0 ([src0r].map (fun s => { s with ready := false }))).1
        = (set_sources h0 [src0r]).1) :=
  ⟨by decide, by decide, by decide,
    C10_new_readiness_ignored h0 [src0r] (fun _ => false)
      (by decide) (by decide) (by decide)⟩
